import Mathlib

/-!
Shallow embedding of the fabric provisioning/deprovisioning workflow
(`config/fabric_core/*.py` and the single-file variant
`config/generate_solution_from_yml_simple.py`).

Every operation is translated into a pure Lean function.  The side effects the
Python code performs (external CLI commands, Azure REST calls, sleeps, printed
markers) are recorded as an explicit trace of `Eff` values, and the outputs of
the external world (HTTP status codes, command results, parsed JSON bodies)
are supplied by oracle arguments, so that a theorem quantifying over the
oracle covers every possible behaviour of the external system.  Printed
messages keep only their identifying text (the checkmark/cross glyphs of the
source are elided).  JSON request bodies are modelled structurally by the
record types below, carrying exactly the fields the source writes.
-/

/-- Request body of the capacity-create PUT
(`capacity.py`, `create_capacity`): location, SKU name (tier is the constant
"Fabric") and the admin-members list. -/
structure CapacityBody where
  location : Option String
  skuName : Option String
  members : List String
deriving DecidableEq, Repr

/-- Request body of a role-assignment POST (`workspace.py`,
`assign_permissions`): principal id (absent when the group name did not
resolve), principal type and role. -/
structure RoleAssignBody where
  principalId : Option String
  principalType : String
  role : String
deriving DecidableEq, Repr

/-- Request body of the updateFromGit POST (`git_integration.py`,
`update_workspace_from_git`). -/
structure UpdateBody where
  remoteCommitHash : String
  conflictResolutionType : String
  conflictResolutionPolicy : String
  allowOverrideItems : Bool
deriving DecidableEq, Repr

/-- One observable effect of the workflow: an external call, a sleep, or a
printed marker.  Constructors mirror the concrete commands the Python code
issues through `run_command` / `call_azure_api`. -/
inductive Eff where
  | azGet (endpoint : String)
  | azPost (endpoint : String)
  | azPut (endpoint : String) (body : CapacityBody)
  | lsCmd (item : String)
  | getIdCmd (item : String)
  | createCmd (item : String) (param : String)
  | assignGet (workspaceId : String)
  | assignPost (workspaceId : String) (body : RoleAssignBody)
  | connListGet
  | connCreatePost (displayName : String) (url : String) (key : Option String)
  | gitStatusGet (workspaceId : String)
  | gitInitPost (workspaceId : String)
  | gitUpdatePost (workspaceId : String) (body : UpdateBody)
  | sleep (seconds : Nat)
  | printMsg (msg : String)
deriving DecidableEq, Repr

/-- Number of elements of a trace satisfying a predicate. -/
def countE (p : Eff → Bool) (es : List Eff) : Nat := (es.filter p).length

def isAzPost : Eff → Bool
  | Eff.azPost _ => true
  | _ => false

def isAzPut : Eff → Bool
  | Eff.azPut _ _ => true
  | _ => false

def isSleepE : Eff → Bool
  | Eff.sleep _ => true
  | _ => false

def isCreateCmd : Eff → Bool
  | Eff.createCmd _ _ => true
  | _ => false

def isGetIdCmd : Eff → Bool
  | Eff.getIdCmd _ => true
  | _ => false

def isAssignPost : Eff → Bool
  | Eff.assignPost _ _ => true
  | _ => false

def isGitStatusGet : Eff → Bool
  | Eff.gitStatusGet _ => true
  | _ => false

def isGitInitPost : Eff → Bool
  | Eff.gitInitPost _ => true
  | _ => false

def isGitUpdatePost : Eff → Bool
  | Eff.gitUpdatePost _ _ => true
  | _ => false

theorem countE_nil (p : Eff → Bool) : countE p [] = 0 := rfl

theorem countE_cons (p : Eff → Bool) (e : Eff) (es : List Eff) :
    countE p (e :: es) = (if p e then 1 else 0) + countE p es := by
  cases he : p e <;> simp [countE, List.filter_cons, he] <;> omega

theorem countE_append (p : Eff → Bool) (es fs : List Eff) :
    countE p (es ++ fs) = countE p es + countE p fs := by
  simp [countE, List.filter_append]

/-! ## Capacity lifecycle (`config/fabric_core/capacity.py`)

`call_azure_api` returns the pair `(status_code, text)` parsed from the CLI's
JSON envelope, with `(0, {})` when stdout is empty or malformed.  The oracles
below give the `status_code` of each successive Azure call (all integers,
including the failure sentinel 0, are possible values), which is the only part
of the response the capacity functions inspect. -/

/-- ARM endpoint of a capacity (used by the existence GET and the create PUT). -/
def capURL (name sub rg : String) : String :=
  "/subscriptions/" ++ sub ++ "/resourceGroups/" ++ rg ++
    "/providers/Microsoft.Fabric/capacities/" ++ name ++ "?api-version=2023-11-01"

/-- ARM endpoint of the resume POST. -/
def resumeURL (name sub rg : String) : String :=
  "/subscriptions/" ++ sub ++ "/resourceGroups/" ++ rg ++
    "/providers/Microsoft.Fabric/capacities/" ++ name ++ "/resume?api-version=2023-11-01"

/-- ARM endpoint of the suspend POST (the source writes it without a leading
slash). -/
def suspendURL (name sub rg : String) : String :=
  "subscriptions/" ++ sub ++ "/resourceGroups/" ++ rg ++
    "/providers/Microsoft.Fabric/capacities/" ++ name ++ "/suspend?api-version=2023-11-01"

/-- `status in [200, 202]`, the success test of the suspend loop. -/
def okSuspend (s : Int) : Bool := s = 200 || s = 202

def suspendOkMsg (name : String) : String := "Suspended " ++ name

def suspendFailMsg (name : String) : String := "Failed to suspend " ++ name

/-- The body of `for _ in range(5)` in `suspend_capacity`: attempt `i` issues
the suspend POST, returns `True` on status 200/202, otherwise sleeps 60 and
continues; when the fuel runs out the loop falls through to the failure
print and `return False`. -/
def suspendFrom (name sub rg : String) (st : Nat → Int) : Nat → Nat → Bool × List Eff
  | _, 0 => (false, [Eff.printMsg (suspendFailMsg name)])
  | i, fuel + 1 =>
    if okSuspend (st i) then
      (true, [Eff.azPost (suspendURL name sub rg), Eff.printMsg (suspendOkMsg name)])
    else
      let r := suspendFrom name sub rg st (i + 1) fuel
      (r.1, Eff.azPost (suspendURL name sub rg) :: Eff.sleep 60 :: r.2)

/-- `suspend_capacity(capacity_name, subscription_id, resource_group)`:
up to 5 suspend attempts with a fixed 60-second sleep after each failed one.
`st i` is the status code the `i`-th suspend POST comes back with. -/
def suspend_capacity (name sub rg : String) (st : Nat → Int) : Bool × List Eff :=
  suspendFrom name sub rg st 0 5

/-- Index (0-based) of the first of the five attempts whose status is 200/202,
if any. -/
def firstOkIdx (st : Nat → Int) : Option Nat :=
  if okSuspend (st 0) then some 0
  else if okSuspend (st 1) then some 1
  else if okSuspend (st 2) then some 2
  else if okSuspend (st 3) then some 3
  else if okSuspend (st 4) then some 4
  else none

theorem exists_lt_five_iff (p : Nat → Prop) :
    (∃ i, i < 5 ∧ p i) ↔ p 0 ∨ p 1 ∨ p 2 ∨ p 3 ∨ p 4 := by
  constructor
  · rintro ⟨i, hi, hp⟩
    interval_cases i <;> tauto
  · rintro (h | h | h | h | h)
    exacts [⟨0, by omega, h⟩, ⟨1, by omega, h⟩, ⟨2, by omega, h⟩,
      ⟨3, by omega, h⟩, ⟨4, by omega, h⟩]

/-- Claim C1: for every capacity name and every sequence of suspend-call
outcomes, `suspend_capacity` issues at most 5 suspend POSTs, returns `true`
exactly when one of (at most) five issued calls comes back 200/202 — stopping
at the first such call — sleeps a fixed 60 units after every attempt that did
not return 200/202, and after 5 failed attempts returns `false` (the trace
characterization below pins the whole behaviour, so no exception path exists). -/
theorem suspend_capacity_spec (name sub rg : String) (st : Nat → Int) :
    countE isAzPost (suspend_capacity name sub rg st).2 ≤ 5
    ∧ ((suspend_capacity name sub rg st).1 = true ↔ ∃ i, i < 5 ∧ okSuspend (st i) = true)
    ∧ (match firstOkIdx st with
      | some k =>
          suspend_capacity name sub rg st =
            (true,
              (List.replicate k [Eff.azPost (suspendURL name sub rg), Eff.sleep 60]).flatten ++
                [Eff.azPost (suspendURL name sub rg), Eff.printMsg (suspendOkMsg name)])
      | none =>
          suspend_capacity name sub rg st =
            (false,
              (List.replicate 5 [Eff.azPost (suspendURL name sub rg), Eff.sleep 60]).flatten ++
                [Eff.printMsg (suspendFailMsg name)])) := by
  have hex := exists_lt_five_iff (fun i => okSuspend (st i) = true)
  cases h0 : okSuspend (st 0) <;> cases h1 : okSuspend (st 1) <;>
    cases h2 : okSuspend (st 2) <;> cases h3 : okSuspend (st 3) <;>
    cases h4 : okSuspend (st 4) <;>
  · refine ⟨?_, ?_, ?_⟩
    · simp [suspend_capacity, suspendFrom, h0, h1, h2, h3, h4, countE,
        List.filter_cons, List.filter_nil, isAzPost]
    · rw [hex]
      simp [suspend_capacity, suspendFrom, h0, h1, h2, h3, h4]
    · simp [suspend_capacity, suspendFrom, firstOkIdx, h0, h1, h2, h3, h4,
        List.replicate, List.flatten]

/-! ## `create_capacity` (`config/fabric_core/capacity.py`) -/

/-- Python's `str.strip()`: drop leading and trailing whitespace.  Written
over the character list so it evaluates by kernel reduction. -/
def stripStr (s : String) : String :=
  String.mk (((s.data.dropWhile Char.isWhitespace).reverse.dropWhile
    Char.isWhitespace).reverse)

/-- The `admin_members` value can appear in the configuration either as a
list or as a (comma-separated) string; `none` in the record types below means
the corresponding key is absent. -/
inductive AdminMembers where
  | list (xs : List String)
  | str (s : String)
deriving DecidableEq, Repr

/-- Per-capacity configuration dictionary, restricted to the keys
`create_capacity` reads. -/
structure CapacityConfig where
  name : String
  region : Option String
  sku : Option String
  admin_members : Option AdminMembers
deriving DecidableEq, Repr

/-- Defaults dictionary (`capacity_defaults`), restricted to the keys
`create_capacity` reads. -/
structure CapacityDefaults where
  capacity_admins : Option AdminMembers
  region : Option String
  sku : Option String
deriving DecidableEq, Repr

/-- `capacity_config.get('admin_members', defaults.get('capacity_admins', ''))`. -/
def adminRaw (cfg : CapacityConfig) (dfl : CapacityDefaults) : AdminMembers :=
  cfg.admin_members.getD (dfl.capacity_admins.getD (AdminMembers.str ""))

/-- The normalization the source applies: a list is used as-is; a string is
split on commas, each entry stripped, and entries that strip to empty dropped. -/
def normalizeAdmins : AdminMembers → List String
  | AdminMembers.list xs => xs
  | AdminMembers.str s =>
      ((s.splitOn ",").map stripStr).filter (fun x => x ≠ "")

/-- The normalization as the claim states it (trim and drop empties in both
forms); used only to compare the claim against `normalizeAdmins`. -/
def specNormalizeAdmins : AdminMembers → List String
  | AdminMembers.list xs => (xs.map stripStr).filter (fun x => x ≠ "")
  | AdminMembers.str s =>
      ((s.splitOn ",").map stripStr).filter (fun x => x ≠ "")

def capExistsMsg (name : String) : String := name ++ " exists"

def capCreatedMsg (name : String) : String := "Created " ++ name

/-- `create_capacity(capacity_config, subscription_id, resource_group,
defaults)`.  `st 0` is the status of the existence GET; `st 1` the status of
the create PUT (when issued).  The function returns `None` in Python, so only
the trace is modelled. -/
def create_capacity (cfg : CapacityConfig) (sub rg : String)
    (dfl : CapacityDefaults) (st : Nat → Int) : List Eff :=
  if st 0 = 200 then
    [Eff.azGet (capURL cfg.name sub rg), Eff.printMsg (capExistsMsg cfg.name),
      Eff.azPost (resumeURL cfg.name sub rg)]
  else
    let body : CapacityBody :=
      { location := (cfg.region).orElse (fun _ => dfl.region)
        skuName := (cfg.sku).orElse (fun _ => dfl.sku)
        members := normalizeAdmins (adminRaw cfg dfl) }
    [Eff.azGet (capURL cfg.name sub rg), Eff.azPut (capURL cfg.name sub rg) body] ++
      (if st 1 = 200 ∨ st 1 = 201 then
        [Eff.printMsg (capCreatedMsg cfg.name), Eff.sleep 40]
      else [])

/-- Members list carried by each capacity-create PUT in a trace. -/
def putMembers (es : List Eff) : List (List String) :=
  es.filterMap fun e =>
    match e with
    | Eff.azPut _ b => some b.members
    | _ => none

/-- Claim C5: when the existence check of `create_capacity` returns HTTP 200,
the function issues exactly one resume POST and no create PUT, and returns
right after the resume with no further call and no sleep (no confirmation
poll whatever the resume outcome — the resume status is never read). -/
theorem create_capacity_resume_spec (cfg : CapacityConfig) (sub rg : String)
    (dfl : CapacityDefaults) (st : Nat → Int) (h : st 0 = 200) :
    create_capacity cfg sub rg dfl st =
      [Eff.azGet (capURL cfg.name sub rg), Eff.printMsg (capExistsMsg cfg.name),
        Eff.azPost (resumeURL cfg.name sub rg)]
    ∧ countE isAzPost (create_capacity cfg sub rg dfl st) = 1
    ∧ countE isAzPut (create_capacity cfg sub rg dfl st) = 0
    ∧ countE isSleepE (create_capacity cfg sub rg dfl st) = 0 := by
  refine ⟨?_, ?_, ?_, ?_⟩ <;>
    simp [create_capacity, h, countE, List.filter_cons, List.filter_nil,
      isAzPost, isAzPut, isSleepE]

theorem create_capacity_resume_spec_witness :
    create_capacity ⟨"c1", none, none, none⟩ "s" "rg" ⟨none, none, none⟩
        (fun _ => 200) =
      [Eff.azGet (capURL "c1" "s" "rg"), Eff.printMsg (capExistsMsg "c1"),
        Eff.azPost (resumeURL "c1" "s" "rg")] :=
  (create_capacity_resume_spec ⟨"c1", none, none, none⟩ "s" "rg"
    ⟨none, none, none⟩ (fun _ => 200) rfl).1

/-- Claim C6 (counterexample): with `admin_members` given as the list
`[" a ", ""]` (and a failing existence check so the PUT is issued), the
members placed in the request body are `[" a ", ""]` — untrimmed and with the
empty entry kept — while the normalization the claim describes would produce
`["a"]`.  So the claim's "normalized by trimming ... and dropping empty
entries" is false for the list form. -/
theorem create_capacity_admins_counterexample :
    putMembers (create_capacity
        ⟨"c1", none, none, some (AdminMembers.list [" a ", ""])⟩ "s" "rg"
        ⟨none, none, none⟩ (fun _ => 404)) = [[" a ", ""]]
    ∧ specNormalizeAdmins
        (adminRaw ⟨"c1", none, none, some (AdminMembers.list [" a ", ""])⟩
          ⟨none, none, none⟩) = ["a"]
    ∧ ([" a ", ""] : List String) ≠ ["a"] := by
  refine ⟨rfl, ?_, by decide⟩
  simp [specNormalizeAdmins, adminRaw]
  rfl

/-- Claim C6 (amended): in `create_capacity` the admin-members value is taken
from the per-capacity config, falling back to the defaults, and accepted as
either a list or a comma-separated string; the comma-separated string form is
normalized by trimming whitespace from each entry and dropping entries that
trim to empty, while the list form is placed in the request body as-is. -/
theorem create_capacity_admins_spec (cfg : CapacityConfig) (sub rg : String)
    (dfl : CapacityDefaults) (st : Nat → Int) (h : ¬ st 0 = 200) :
    putMembers (create_capacity cfg sub rg dfl st) =
      [normalizeAdmins (adminRaw cfg dfl)]
    ∧ (∀ s, normalizeAdmins (AdminMembers.str s) =
        ((s.splitOn ",").map stripStr).filter (fun x => x ≠ ""))
    ∧ (∀ xs, normalizeAdmins (AdminMembers.list xs) = xs) := by
  refine ⟨?_, fun s => rfl, fun xs => rfl⟩
  by_cases h1 : st 1 = 200 ∨ st 1 = 201 <;>
    simp [create_capacity, h, h1, putMembers, List.filterMap_cons]

theorem create_capacity_admins_spec_witness :
    putMembers (create_capacity
        ⟨"c1", none, none, some (AdminMembers.str " a ,, b ")⟩ "s" "rg"
        ⟨none, none, none⟩ (fun _ => 404)) =
      [normalizeAdmins (adminRaw
        ⟨"c1", none, none, some (AdminMembers.str " a ,, b ")⟩
        ⟨none, none, none⟩)] :=
  (create_capacity_admins_spec ⟨"c1", none, none, some (AdminMembers.str " a ,, b ")⟩
    "s" "rg" ⟨none, none, none⟩ (fun _ => 404) (by decide)).1

/-! ## Workspace lifecycle (`config/fabric_core/workspace.py`)

`run_command` returns the child process's exit code, stdout and stderr
without raising on non-zero exit; a `CmdResult` oracle therefore ranges over
every possible outcome of an external command. -/

/-- Result of `run_command`: exit code, stdout, stderr. -/
structure CmdResult where
  returncode : Int
  stdout : String
  stderr : String
deriving DecidableEq, Repr

/-- Python's `str.lower()`, written over the character list so it evaluates
by kernel reduction. -/
def lowerStr (s : String) : String := String.mk (s.data.map Char.toLower)

/-- A lower-case hex digit (`[0-9a-f]`), the character class of the UUID
pattern in `get_workspace_id`. -/
def isHexLower (c : Char) : Bool :=
  (48 ≤ c.toNat && c.toNat ≤ 57) || (97 ≤ c.toNat && c.toNat ≤ 102)

/-- Consume exactly `n` lower-case hex characters. -/
def takeHex : Nat → List Char → Option (List Char)
  | 0, cs => some cs
  | _ + 1, [] => none
  | n + 1, c :: cs => if isHexLower c then takeHex n cs else none

/-- Consume one dash. -/
def expectDash : List Char → Option (List Char)
  | c :: cs => if c = '-' then some cs else none
  | [] => none

/-- Does the 8-4-4-4-12 UUID pattern match at the head of the character
list?  This is the fixed-width pattern
`[0-9a-f]{8}-[0-9a-f]{4}-[0-9a-f]{4}-[0-9a-f]{4}-[0-9a-f]{12}`. -/
def matchUUID (cs : List Char) : Bool :=
  (((((((((takeHex 8 cs).bind expectDash).bind (takeHex 4)).bind
    expectDash).bind (takeHex 4)).bind expectDash).bind (takeHex 4)).bind
    expectDash).bind (takeHex 12)).isSome

/-- Leftmost match of the UUID pattern (`re.search` with a fixed-width
pattern): try each start position from the left, and on a match return the 36
matched characters. -/
def findUUIDFrom : List Char → Option String
  | [] => none
  | c :: cs =>
    if matchUUID (c :: cs) then some (String.mk ((c :: cs).take 36))
    else findUUIDFrom cs

/-- `re.search(r'[0-9a-f]{8}-...-[0-9a-f]{12}', s)` followed by `.group()`. -/
def findUUID (s : String) : Option String := findUUIDFrom s.data

/-- The `<name>.Workspace` item path used by the CLI commands. -/
def wsItem (name : String) : String := name ++ ".Workspace"

/-- Pure part of `get_workspace_id`: given the result of the structured
`get <name>.Workspace -q id` command, return the stripped stdout when the
command succeeded with non-empty output, otherwise fall back to scanning the
same (lower-cased) stdout for a UUID-shaped substring. -/
def get_workspace_id_result (r : CmdResult) : Option String :=
  if r.returncode = 0 ∧ stripStr r.stdout ≠ "" then some (stripStr r.stdout)
  else findUUID (lowerStr r.stdout)

/-- `get_workspace_id(workspace_name)`: issues the structured id query and
applies `get_workspace_id_result` to its outcome `r`. -/
def get_workspace_id (name : String) (r : CmdResult) : Option String × List Eff :=
  (get_workspace_id_result r, [Eff.getIdCmd (wsItem name)])

def wsExistsMsg (name : String) : String := name ++ " exists"

def wsCreatedMsg (name : String) : String := "Created " ++ name

def wsFailMsg (name : String) : String := "Failed to create " ++ name

def wsIdWarnMsg : String := "Warning: Workspace created but ID could not be retrieved"

/-- `create_workspace(workspace_config)` for a config `{name, capacity}`.
`o 0` is the outcome of the `ls` existence check, `o 1` of the next command
(the structured id query when the workspace exists, the `create` command
otherwise), `o 2` of the id query after a successful create. -/
def create_workspace (name capacity : String) (o : Nat → CmdResult) :
    Option String × List Eff :=
  if (o 0).returncode = 0 then
    (get_workspace_id_result (o 1),
      [Eff.lsCmd (wsItem name), Eff.printMsg (wsExistsMsg name),
        Eff.getIdCmd (wsItem name)])
  else if (o 1).returncode ≠ 0 then
    (none,
      [Eff.lsCmd (wsItem name),
        Eff.createCmd (wsItem name) ("capacityname=" ++ capacity),
        Eff.printMsg (wsFailMsg name),
        Eff.printMsg ("stdout: " ++ (o 1).stdout),
        Eff.printMsg ("stderr: " ++ (o 1).stderr)])
  else
    let wid := get_workspace_id_result (o 2)
    (wid,
      [Eff.lsCmd (wsItem name),
        Eff.createCmd (wsItem name) ("capacityname=" ++ capacity),
        Eff.printMsg (wsCreatedMsg name), Eff.sleep 5,
        Eff.getIdCmd (wsItem name)] ++
        (if wid.isNone then [Eff.printMsg wsIdWarnMsg] else []))

/-- Claim C8: `get_workspace_id` issues the structured id query first; when
that command exits 0 with non-empty (stripped) stdout its value is returned;
otherwise the same raw output, lower-cased, is scanned for a UUID-shaped
8-4-4-4-12 substring; and the result is `none` exactly when neither the
structured query nor the scan produces a value. -/
theorem get_workspace_id_spec (name : String) (r : CmdResult) :
    (get_workspace_id name r).2 = [Eff.getIdCmd (wsItem name)]
    ∧ (r.returncode = 0 ∧ stripStr r.stdout ≠ "" →
        (get_workspace_id name r).1 = some (stripStr r.stdout))
    ∧ (¬(r.returncode = 0 ∧ stripStr r.stdout ≠ "") →
        (get_workspace_id name r).1 = findUUID (lowerStr r.stdout))
    ∧ ((get_workspace_id name r).1 = none ↔
        ¬(r.returncode = 0 ∧ stripStr r.stdout ≠ "")
          ∧ findUUID (lowerStr r.stdout) = none) := by
  by_cases h : r.returncode = 0 ∧ stripStr r.stdout ≠ "" <;>
    simp [get_workspace_id, get_workspace_id_result, h] <;> tauto

theorem get_workspace_id_spec_witness :
    (get_workspace_id "w" ⟨0, " abc ", ""⟩).1 = some (stripStr " abc ") :=
  (get_workspace_id_spec "w" ⟨0, " abc ", ""⟩).2.1 (by decide)

/-- Claim C7: when the existence check of `create_workspace` succeeds (exit
code 0), the function returns the id resolved by the structured
query/UUID-scan fallback applied to the next command's outcome, and its trace
contains no `create` command. -/
theorem create_workspace_exists_spec (name capacity : String)
    (o : Nat → CmdResult) (h : (o 0).returncode = 0) :
    (create_workspace name capacity o).1 = get_workspace_id_result (o 1)
    ∧ (create_workspace name capacity o).2 =
        [Eff.lsCmd (wsItem name), Eff.printMsg (wsExistsMsg name),
          Eff.getIdCmd (wsItem name)]
    ∧ countE isCreateCmd (create_workspace name capacity o).2 = 0 := by
  refine ⟨?_, ?_, ?_⟩ <;>
    simp [create_workspace, h, countE, List.filter_cons, List.filter_nil,
      isCreateCmd]

theorem create_workspace_exists_spec_witness :
    (create_workspace "w" "cap" (fun _ => ⟨0, "id-text", ""⟩)).1 =
      get_workspace_id_result ⟨0, "id-text", ""⟩ :=
  (create_workspace_exists_spec "w" "cap" (fun _ => ⟨0, "id-text", ""⟩) rfl).1

/-- Claim C10: when the existence check fails and the create command exits
non-zero, `create_workspace` returns `none` immediately: the trace after the
create command holds only the three printed failure lines — no sleep and no
id-resolution query — and the function returns a value rather than raising. -/
theorem create_workspace_fail_spec (name capacity : String)
    (o : Nat → CmdResult) (h0 : ¬ (o 0).returncode = 0)
    (h1 : ¬ (o 1).returncode = 0) :
    (create_workspace name capacity o).1 = none
    ∧ (create_workspace name capacity o).2 =
        [Eff.lsCmd (wsItem name),
          Eff.createCmd (wsItem name) ("capacityname=" ++ capacity),
          Eff.printMsg (wsFailMsg name),
          Eff.printMsg ("stdout: " ++ (o 1).stdout),
          Eff.printMsg ("stderr: " ++ (o 1).stderr)]
    ∧ countE isSleepE (create_workspace name capacity o).2 = 0
    ∧ countE isGetIdCmd (create_workspace name capacity o).2 = 0 := by
  refine ⟨?_, ?_, ?_, ?_⟩ <;>
    simp [create_workspace, h0, h1, countE, List.filter_cons, List.filter_nil,
      isSleepE, isGetIdCmd]

theorem create_workspace_fail_spec_witness :
    (create_workspace "w" "cap" (fun _ => ⟨1, "boom", "err"⟩)).1 = none :=
  (create_workspace_fail_spec "w" "cap" (fun _ => ⟨1, "boom", "err"⟩)
    (by decide) (by decide)).1

/-! ## Permission assignment (`config/fabric_core/workspace.py`)

`assign_permissions` fetches the existing role assignments (a principal-id →
role dictionary, empty on any fetch failure) and walks the desired
permission list.  The dictionary is modelled as an association list
(`existing`), which ranges over every value `get_workspace_role_assignments`
can produce; permission entries are modelled with both keys present,
matching the configuration schema the code reads.  The outcome of each
role-assignment POST is inspected only through the emptiness / validity /
`status_code` of its stdout, modelled by `RespParse`. -/

/-- One desired permission entry: `{'group': ..., 'role': ...}`. -/
structure Permission where
  group : String
  role : String
deriving DecidableEq, Repr

/-- `dict.get` on an association list (first binding wins, as dict keys are
unique). -/
def lookupA (m : List (String × String)) (k : String) : Option String :=
  (m.find? (fun p => p.1 = k)).map (fun p => p.2)

/-- What the code observes of a POST response's stdout: empty, invalid JSON,
or a JSON object with an optional `status_code` field. -/
inductive RespParse where
  | empty
  | invalid
  | parsed (status_code : Option Int)
deriving DecidableEq, Repr

def alreadyMsg (g r : String) : String := g ++ " already has " ++ r ++ " role"

def mismatchMsg (g oldRole newRole : String) : String :=
  g ++ " already has " ++ oldRole ++ " role (wanted " ++ newRole ++ ")"

def assignedMsg (r g : String) : String := "Assigned " ++ r ++ " to " ++ g

def assignEmptyMsg (r g : String) : String :=
  "Failed to assign " ++ r ++ " to " ++ g ++ ": Empty response"

def assignInvalidMsg (r g : String) : String :=
  "Failed to assign " ++ r ++ " to " ++ g ++ ": Invalid JSON"

def assignFailedMsg (r g : String) : String :=
  "Failed to assign " ++ r ++ " to " ++ g

/-- Loop body of `assign_permissions` for one permission entry: resolve the
group name; when the resolved principal is a key of the existing assignments,
print the already-has or the mismatch line and continue with no call;
otherwise issue the role-assignment POST (principal type "Group") and print
according to its response.  (`group_id in existing_assignments` is false when
the group name did not resolve, since the dictionary's keys are strings, so
an unresolved name also reaches the POST, with a null principal id.) -/
def processPermission (wsId : String) (existing secGroups : List (String × String))
    (p : Permission) (resp : RespParse) : List Eff :=
  let gid := lookupA secGroups p.group
  match (match gid with | some g => lookupA existing g | none => none) with
  | some r =>
    if r = p.role then [Eff.printMsg (alreadyMsg p.group p.role)]
    else [Eff.printMsg (mismatchMsg p.group r p.role)]
  | none =>
    Eff.assignPost wsId ⟨gid, "Group", p.role⟩ ::
      (match resp with
        | RespParse.empty => [Eff.printMsg (assignEmptyMsg p.role p.group)]
        | RespParse.invalid => [Eff.printMsg (assignInvalidMsg p.role p.group)]
        | RespParse.parsed sc =>
          if sc = some 200 ∨ sc = some 201 then
            [Eff.printMsg (assignedMsg p.role p.group)]
          else [Eff.printMsg (assignFailedMsg p.role p.group)])

/-- The `for permission in permissions` loop; `k` counts the POSTs issued so
far, indexing the response oracle. -/
def assignLoop (wsId : String) (existing secGroups : List (String × String))
    (o : Nat → RespParse) : Nat → List Permission → List Eff
  | _, [] => []
  | k, p :: ps =>
    let es := processPermission wsId existing secGroups p (o k)
    es ++ assignLoop wsId existing secGroups o (k + countE isAssignPost es) ps

/-- `assign_permissions(workspace_id, permissions, security_groups)`
(fabric_core version): sleep 10, fetch the existing role assignments
(`existing` is the fetched dictionary), then process each desired pair. -/
def assign_permissions (wsId : String) (perms : List Permission)
    (secGroups existing : List (String × String)) (o : Nat → RespParse) :
    List Eff :=
  Eff.sleep 10 :: Eff.assignGet wsId ::
    assignLoop wsId existing secGroups o 0 perms

/-- The single-file variant's loop
(`config/generate_solution_from_yml_simple.py`, `assign_permissions`): every
entry is POSTed unconditionally and the response stdout is fed to
`json.loads` with no guard, so an empty or invalid body raises
(`false` in the second component means the exception escaped there). -/
def assignSimpleLoop (wsId : String) (secGroups : List (String × String))
    (o : Nat → RespParse) : Nat → List Permission → List Eff × Bool
  | _, [] => ([], true)
  | k, p :: ps =>
    let post := Eff.assignPost wsId ⟨lookupA secGroups p.group, "Group", p.role⟩
    match o k with
    | RespParse.empty => ([post], false)
    | RespParse.invalid => ([post], false)
    | RespParse.parsed sc =>
      let pr : List Eff :=
        if sc = some 200 ∨ sc = some 201 then
          [Eff.printMsg (assignedMsg p.role p.group)]
        else []
      let rest := assignSimpleLoop wsId secGroups o (k + 1) ps
      (post :: pr ++ rest.1, rest.2)

/-- `assign_permissions` of the single-file script: sleep 10 then the loop;
no existing-assignment fetch happens at all. -/
def assign_permissions_simple (wsId : String) (perms : List Permission)
    (secGroups : List (String × String)) (o : Nat → RespParse) :
    List Eff × Bool :=
  let r := assignSimpleLoop wsId secGroups o 0 perms
  (Eff.sleep 10 :: r.1, r.2)

/-- A desired pair is already satisfied: its group resolves and the resolved
principal holds exactly the desired role in the existing assignments. -/
def pairSatisfied (existing secGroups : List (String × String))
    (p : Permission) : Bool :=
  match lookupA secGroups p.group with
  | some g => lookupA existing g = some p.role
  | none => false

/-- Claim C2: for a desired pair whose group resolves to principal `g`:
if `g` already holds exactly the desired role, the loop body issues no call
(only the already-has line); if `g` holds a different role, only the
mismatch line is printed and no role-assignment call is made (the existing
role is never overwritten); only when `g` has no assignment at all is one
additive role-assignment POST issued, with principal type "Group". -/
theorem assign_permissions_pair_spec (wsId : String)
    (existing secGroups : List (String × String)) (p : Permission)
    (resp : RespParse) (g : String)
    (hg : lookupA secGroups p.group = some g) :
    (lookupA existing g = some p.role →
      processPermission wsId existing secGroups p resp =
        [Eff.printMsg (alreadyMsg p.group p.role)])
    ∧ (∀ r, lookupA existing g = some r → r ≠ p.role →
        processPermission wsId existing secGroups p resp =
          [Eff.printMsg (mismatchMsg p.group r p.role)])
    ∧ (lookupA existing g = none →
        ∃ tail, processPermission wsId existing secGroups p resp =
            Eff.assignPost wsId ⟨some g, "Group", p.role⟩ :: tail
          ∧ countE isAssignPost tail = 0) := by
  refine ⟨?_, ?_, ?_⟩
  · intro h
    simp [processPermission, hg, h]
  · intro r h hne
    simp [processPermission, hg, h, hne]
  · intro h
    cases resp with
    | empty =>
      exact ⟨[Eff.printMsg (assignEmptyMsg p.role p.group)],
        by simp [processPermission, hg, h], rfl⟩
    | invalid =>
      exact ⟨[Eff.printMsg (assignInvalidMsg p.role p.group)],
        by simp [processPermission, hg, h], rfl⟩
    | parsed sc =>
      by_cases hs : sc = some 200 ∨ sc = some 201
      · exact ⟨[Eff.printMsg (assignedMsg p.role p.group)],
          by simp [processPermission, hg, h, hs], rfl⟩
      · exact ⟨[Eff.printMsg (assignFailedMsg p.role p.group)],
          by simp [processPermission, hg, h, hs], rfl⟩

theorem assign_permissions_pair_spec_witness :
    processPermission "w" [("gid1", "Admin")] [("Eng", "gid1")]
      ⟨"Eng", "Admin"⟩ RespParse.empty =
      [Eff.printMsg (alreadyMsg "Eng" "Admin")] :=
  (assign_permissions_pair_spec "w" [("gid1", "Admin")] [("Eng", "gid1")]
    ⟨"Eng", "Admin"⟩ RespParse.empty "gid1" (by decide)).1 (by decide)

/-- Helper for C3: a loop over pairs that are all already satisfied issues
no role-assignment POST. -/
theorem assignLoop_no_posts (wsId : String)
    (existing secGroups : List (String × String)) (o : Nat → RespParse)
    (perms : List Permission)
    (h : ∀ p ∈ perms, pairSatisfied existing secGroups p = true) :
    ∀ k, countE isAssignPost (assignLoop wsId existing secGroups o k perms) = 0 := by
  induction perms with
  | nil => intro k; rfl
  | cons p ps ih =>
    intro k
    have hp := h p (List.mem_cons_self p ps)
    have hps : ∀ q ∈ ps, pairSatisfied existing secGroups q = true :=
      fun q hq => h q (List.mem_cons_of_mem p hq)
    unfold pairSatisfied at hp
    rcases hg : lookupA secGroups p.group with _ | g
    · rw [hg] at hp; simp at hp
    · rw [hg] at hp
      simp only [decide_eq_true_eq] at hp
      have hbody : processPermission wsId existing secGroups p (o k) =
          [Eff.printMsg (alreadyMsg p.group p.role)] := by
        simp [processPermission, hg, hp]
      simp only [assignLoop, hbody, countE_append, ih hps]
      rfl

/-- Claim C3 (amended to the fetching implementation): when every desired
pair already appears in the fetched existing assignments — as on a second run
with an identical desired-state list once the first run's assignments are
visible — the fabric_core `assign_permissions` issues zero role-assignment
POSTs. -/
theorem assign_permissions_idempotent (wsId : String)
    (perms : List Permission) (secGroups existing : List (String × String))
    (o : Nat → RespParse)
    (h : ∀ p ∈ perms, pairSatisfied existing secGroups p = true) :
    countE isAssignPost (assign_permissions wsId perms secGroups existing o) = 0 := by
  have := assignLoop_no_posts wsId existing secGroups o perms h 0
  simp only [assign_permissions, countE_cons, this]
  rfl

theorem assign_permissions_idempotent_witness :
    countE isAssignPost
      (assign_permissions "w" [⟨"Eng", "Admin"⟩] [("Eng", "gid1")]
        [("gid1", "Admin")] (fun _ => RespParse.parsed (some 200))) = 0 :=
  assign_permissions_idempotent "w" [⟨"Eng", "Admin"⟩] [("Eng", "gid1")]
    [("gid1", "Admin")] (fun _ => RespParse.parsed (some 200))
    (by decide)

/-- Claim C3 (counterexample): the single-file variant of
`assign_permissions` never consults existing assignments — with the desired
pair `(Eng, Admin)` already present in the workspace's assignments (the
association list below), a re-run still issues one role-assignment POST, not
zero. -/
theorem assign_permissions_simple_counterexample :
    (∀ p ∈ [(⟨"Eng", "Admin"⟩ : Permission)],
      pairSatisfied [("gid1", "Admin")] [("Eng", "gid1")] p = true)
    ∧ countE isAssignPost
        (assign_permissions_simple "w" [⟨"Eng", "Admin"⟩] [("Eng", "gid1")]
          (fun _ => RespParse.parsed (some 200))).1 = 1 := by
  refine ⟨by decide, rfl⟩

/-! ## Git integration (`config/fabric_core/git_integration.py`) -/

/-- A parsed Python JSON value, as returned by a successful `json.loads`. -/
inductive PyJson where
  | jnull
  | jbool (b : Bool)
  | jnum (n : Int)
  | jstr (s : String)
  | jarr (xs : List PyJson)
  | jobj (fields : List (String × PyJson))

/-- The Python exceptions the connection code can raise: `json.loads` on
empty/malformed stdout, `.get` on a non-dict, iteration over a
non-iterable. -/
inductive PyExn where
  | jsonDecodeError
  | attributeError
  | typeError
deriving DecidableEq, Repr

/-- Python's `x.get(k, d)`: dictionary lookup with default, raising
`AttributeError` when `x` is not a dict. -/
def jget (v : PyJson) (k : String) (d : PyJson) : Except PyExn PyJson :=
  match v with
  | PyJson.jobj fs =>
      Except.ok (((fs.find? (fun p => p.1 = k)).map (fun p => p.2)).getD d)
  | _ => Except.error PyExn.attributeError

/-- `v == 200`-style comparison against an int literal (only equal numbers
compare equal; other types compare unequal without raising). -/
def isJNum (v : PyJson) (n : Int) : Bool :=
  match v with
  | PyJson.jnum m => m = n
  | _ => false

/-- `v == 'test_connection'`-style comparison against a string literal. -/
def isJStr (v : PyJson) (s : String) : Bool :=
  match v with
  | PyJson.jstr t => t = s
  | _ => false

/-- Python's `for x in v`: lists yield their elements, strings their
characters, dicts their keys; other values raise `TypeError`. -/
def pyIter : PyJson → Except PyExn (List PyJson)
  | PyJson.jarr xs => Except.ok xs
  | PyJson.jstr s => Except.ok (s.data.map (fun c => PyJson.jstr (String.mk [c])))
  | PyJson.jobj fs => Except.ok (fs.map (fun p => PyJson.jstr p.1))
  | _ => Except.error PyExn.typeError

/-- The `for conn in connections` loop: return `conn.get('id')` of the first
entry whose `displayName` is the literal `test_connection`; `.get` on a
non-dict entry reached before a match raises. -/
def findTestConn : List PyJson → Except PyExn (Option PyJson)
  | [] => Except.ok none
  | c :: cs =>
    match jget c "displayName" PyJson.jnull with
    | Except.error e => Except.error e
    | Except.ok dn =>
      if isJStr dn "test_connection" then
        match jget c "id" PyJson.jnull with
        | Except.error e => Except.error e
        | Except.ok i => Except.ok (some i)
      else findTestConn cs

/-- Lines 27-37 of `git_integration.py` applied to the parsed
connections-list value: read `status_code`; on 200 read `text` (default
`{}`), then `value` (default `[]`), iterate, and scan for the test
connection; `some` is an early return with the found id, `none` falls
through to connection creation. -/
def listPhase (v : PyJson) : Except PyExn (Option PyJson) :=
  match jget v "status_code" PyJson.jnull with
  | Except.error e => Except.error e
  | Except.ok sc =>
    if isJNum sc 200 then
      match jget v "text" (PyJson.jobj []) with
      | Except.error e => Except.error e
      | Except.ok t =>
        match jget t "value" (PyJson.jarr []) with
        | Except.error e => Except.error e
        | Except.ok val =>
          match pyIter val with
          | Except.error e => Except.error e
          | Except.ok conns => findTestConn conns
    else Except.ok none

/-- Lines 58-65 of `git_integration.py` applied to the parsed
create-connection value: on `status_code` in [200, 201] return
`text.get('id')` (`some`, printed as created); otherwise `none` (the
function then returns Python `None`). -/
def createPhase (v : PyJson) : Except PyExn (Option PyJson) :=
  match jget v "status_code" PyJson.jnull with
  | Except.error e => Except.error e
  | Except.ok sc =>
    if isJNum sc 200 || isJNum sc 201 then
      match jget v "text" (PyJson.jobj []) with
      | Except.error e => Except.error e
      | Except.ok t =>
        match jget t "id" PyJson.jnull with
        | Except.error e => Except.error e
        | Except.ok cid => Except.ok (some cid)
    else Except.ok none

/-- `f"{x}"` of an optional value: Python prints `None` for a missing key. -/
def ostr : Option String → String
  | some s => s
  | none => "None"

def testConnMsg : String := "using a test connection"

def connCreatedMsg (name : String) : String := "Created connection: " ++ name

/-- `get_or_create_git_connection(workspace_id, git_config)`: list the
connections and return the first one whose display name is the literal
`test_connection`; otherwise create a new connection (credential key from the
`GITHUB_PAT` environment value) and return its id on 200/201, else `None`
(`PyJson.jnull`).  The oracle gives each command's parsed stdout, `none`
standing for empty or malformed stdout.  Both `json.loads` calls are
unguarded and every field access / iteration follows Python typing, so the
result is `Except.error e` — the escaped exception — whenever decoding fails
or the parsed value is ill-shaped for the accesses performed, together with
the trace accumulated up to that point. -/
def get_or_create_git_connection (owner repo pat : Option String)
    (o : Nat → Option PyJson) : List Eff × Except PyExn PyJson :=
  let connName := "GitHub-" ++ ostr owner ++ "-" ++ ostr repo
  let url := "https://github.com/" ++ ostr owner ++ "/" ++ ostr repo
  match o 0 with
  | none => ([Eff.connListGet], Except.error PyExn.jsonDecodeError)
  | some v0 =>
    match listPhase v0 with
    | Except.error e => ([Eff.connListGet], Except.error e)
    | Except.ok (some cid) =>
      ([Eff.connListGet, Eff.printMsg testConnMsg], Except.ok cid)
    | Except.ok none =>
      match o 1 with
      | none =>
        ([Eff.connListGet, Eff.connCreatePost connName url pat],
          Except.error PyExn.jsonDecodeError)
      | some v1 =>
        match createPhase v1 with
        | Except.error e =>
          ([Eff.connListGet, Eff.connCreatePost connName url pat],
            Except.error e)
        | Except.ok (some cid) =>
          ([Eff.connListGet, Eff.connCreatePost connName url pat,
            Eff.printMsg (connCreatedMsg connName)], Except.ok cid)
        | Except.ok none =>
          ([Eff.connListGet, Eff.connCreatePost connName url pat],
            Except.ok PyJson.jnull)

/-- Claim C4 (counterexample): exceptions escape
`get_or_create_git_connection` to its caller — a `json.loads` decode error
when the connections-list stdout is empty or malformed, and an
`AttributeError` when the stdout is valid JSON whose envelope is not a dict
(here the array `[]`, on which `.get('status_code')` raises) — so it is not
true that every component operation absorbs every possible external-command
output. -/
theorem git_connection_exception_escape :
    (get_or_create_git_connection (some "org") (some "repo") none
      (fun _ => none)).2 = Except.error PyExn.jsonDecodeError
    ∧ (get_or_create_git_connection (some "org") (some "repo") none
      (fun _ => some (PyJson.jarr []))).2 = Except.error PyExn.attributeError :=
  ⟨rfl, rfl⟩

/-- Claim C4 (amended): an exception escapes `get_or_create_git_connection`
to its caller exactly when the connections-list stdout fails to parse as
JSON, or the list-phase field accesses / connection iteration on the parsed
value raise (non-dict envelope; on the status-200 path a non-dict `text`,
a non-iterable `value`, or a non-dict connection entry before any
`test_connection` match), or — when no test-connection early return
happens — the create-connection stdout fails to parse or its field accesses
raise; in every other case the operation returns normally. -/
theorem git_connection_error_iff (owner repo pat : Option String)
    (o : Nat → Option PyJson) :
    (∃ e, (get_or_create_git_connection owner repo pat o).2 = Except.error e) ↔
      o 0 = none
      ∨ (∃ v0 e0, o 0 = some v0 ∧ listPhase v0 = Except.error e0)
      ∨ (∃ v0, o 0 = some v0 ∧ listPhase v0 = Except.ok none
          ∧ (o 1 = none
            ∨ ∃ v1 e1, o 1 = some v1 ∧ createPhase v1 = Except.error e1)) := by
  rcases h0 : o 0 with _ | v0
  · constructor
    · intro _
      exact Or.inl rfl
    · intro _
      exact ⟨PyExn.jsonDecodeError, by simp [get_or_create_git_connection, h0]⟩
  · rcases hl : listPhase v0 with e0 | mc
    · constructor
      · intro _
        exact Or.inr (Or.inl ⟨v0, e0, rfl, hl⟩)
      · intro _
        exact ⟨e0, by simp [get_or_create_git_connection, h0, hl]⟩
    · rcases mc with _ | cid
      · rcases h1 : o 1 with _ | v1
        · constructor
          · intro _
            exact Or.inr (Or.inr ⟨v0, rfl, hl, Or.inl rfl⟩)
          · intro _
            exact ⟨PyExn.jsonDecodeError,
              by simp [get_or_create_git_connection, h0, hl, h1]⟩
        · rcases hc : createPhase v1 with e1 | oc
          · constructor
            · intro _
              exact Or.inr (Or.inr ⟨v0, rfl, hl, Or.inr ⟨v1, e1, rfl, hc⟩⟩)
            · intro _
              exact ⟨e1, by simp [get_or_create_git_connection, h0, hl, h1, hc]⟩
          · constructor
            · rintro ⟨e, habs⟩
              rcases oc with _ | cid <;>
                simp [get_or_create_git_connection, h0, hl, h1, hc] at habs
            · rintro (hno | ⟨v0', e0', hv, hl'⟩ | ⟨v0', hv, hl', hrest⟩)
              · exact absurd hno (by simp)
              · injection hv with hvv
                subst hvv
                rw [hl] at hl'
                exact absurd hl' (by simp)
              · injection hv with hvv
                subst hvv
                rcases hrest with h1' | ⟨v1', e1', hv1, hc'⟩
                · exact absurd h1' (by simp)
                · injection hv1 with hvv1
                  subst hvv1
                  rw [hc] at hc'
                  exact absurd hc' (by simp)
      · constructor
        · rintro ⟨e, habs⟩
          simp [get_or_create_git_connection, h0, hl] at habs
        · rintro (hno | ⟨v0', e0', hv, hl'⟩ | ⟨v0', hv, hl', hrest⟩)
          · exact absurd hno (by simp)
          · injection hv with hvv
            subst hvv
            rw [hl] at hl'
            exact absurd hl' (by simp)
          · injection hv with hvv
            subst hvv
            rw [hl] at hl'
            exact absurd hl' (by simp)

/-! ### `update_workspace_from_git` -/

/-- Fields of a git-status / updateFromGit response body that
`update_workspace_from_git` reads. -/
structure GitJson where
  status_code : Option Int
  errorCode : Option String
  remoteCommitHash : Option String
deriving DecidableEq, Repr

/-- What the code observes of a git API response's stdout. -/
inductive GitResp where
  | empty
  | invalid
  | parsed (j : GitJson)
deriving DecidableEq, Repr

def gitStatusFailMsg : String := "Failed to get Git status"

def gitParseFailMsg : String := "Failed to parse Git status"

def gitInitMsg : String := "Initializing Git connection"

def gitStatusCodeFailMsg : String := "Failed to get Git status: code"

def gitNoHashMsg : String := "No remoteCommitHash found in status"

def gitUpdatedMsg (name : String) : String := "Updated " ++ name ++ " from Git"

def gitMayFailMsg : String := "Update from Git may have failed"

/-- Continuation of `update_workspace_from_git` once a parsed status `j` is
at hand (after the optional one-time initialize): require status 200, then a
non-empty `remoteCommitHash`, then issue the updateFromGit POST with the
fixed conflict-resolution policy; `o k` is the response of that POST, whose
empty stdout counts as accepted success. -/
def afterGitStatus (wsId name : String) (o : Nat → GitResp) (k : Nat)
    (j : GitJson) (pre : List Eff) : Bool × List Eff :=
  if j.status_code = some 200 then
    match j.remoteCommitHash with
    | some h =>
      if h = "" then (false, pre ++ [Eff.printMsg gitNoHashMsg])
      else
        let es := pre ++
          [Eff.gitUpdatePost wsId ⟨h, "Workspace", "PreferWorkspace", true⟩]
        match o k with
        | GitResp.empty => (true, es)
        | GitResp.invalid => (false, es ++ [Eff.printMsg gitMayFailMsg])
        | GitResp.parsed j3 =>
          if j3.status_code = some 200 ∨ j3.status_code = some 201
              ∨ j3.status_code = some 202 then
            (true, es ++ [Eff.printMsg (gitUpdatedMsg name)])
          else (false, es ++ [Eff.printMsg gitMayFailMsg])
    | none => (false, pre ++ [Eff.printMsg gitNoHashMsg])
  else (false, pre ++ [Eff.printMsg gitStatusCodeFailMsg])

/-- Trace prefix of the uninitialized-connection branch: the first status
GET, the initialize print and POST, and the retried status GET. -/
def initPre (wsId : String) : List Eff :=
  [Eff.gitStatusGet wsId, Eff.printMsg gitInitMsg,
    Eff.gitInitPost wsId, Eff.gitStatusGet wsId]

/-- `update_workspace_from_git(workspace_id, workspace_name)`.  Calls are
numbered in issue order: 0 = first status GET; on the uninitialized-connection
branch 1 = initializeConnection POST (response ignored) and 2 = retried
status GET; the next index is the updateFromGit POST.  An empty first-status
stdout returns early; on the retry the raw stdout goes straight to
`json.loads`, so empty and invalid both land in the caught-decode-error
branch. -/
def update_workspace_from_git (wsId name : String) (o : Nat → GitResp) :
    Bool × List Eff :=
  match o 0 with
  | GitResp.empty => (false, [Eff.gitStatusGet wsId, Eff.printMsg gitStatusFailMsg])
  | GitResp.invalid => (false, [Eff.gitStatusGet wsId, Eff.printMsg gitParseFailMsg])
  | GitResp.parsed j0 =>
    if j0.status_code = some 400
        ∧ j0.errorCode = some "WorkspaceGitConnectionNotInitialized" then
      match o 2 with
      | GitResp.empty => (false, initPre wsId ++ [Eff.printMsg gitParseFailMsg])
      | GitResp.invalid => (false, initPre wsId ++ [Eff.printMsg gitParseFailMsg])
      | GitResp.parsed j2 => afterGitStatus wsId name o 3 j2 (initPre wsId)
    else afterGitStatus wsId name o 1 j0 [Eff.gitStatusGet wsId]

/-- `afterGitStatus` appends only printMsg and gitUpdatePost effects to its
prefix, so any count blind to those two kinds is the count over the prefix. -/
theorem afterGitStatus_countE (wsId name : String) (o : Nat → GitResp)
    (k : Nat) (j : GitJson) (pre : List Eff) (p : Eff → Bool)
    (hup : ∀ b, p (Eff.gitUpdatePost wsId b) = false)
    (hpr : ∀ m, p (Eff.printMsg m) = false) :
    countE p (afterGitStatus wsId name o k j pre).2 = countE p pre := by
  unfold afterGitStatus
  by_cases hs : j.status_code = some 200
  · rcases hh : j.remoteCommitHash with _ | h
    · simp [hs, hh, countE_append, countE_cons, countE_nil, hpr]
    · by_cases hhe : h = ""
      · simp [hs, hh, hhe, countE_append, countE_cons, countE_nil, hpr]
      · rcases h3 : o k with _ | _ | j3
        · simp [hs, hh, hhe, h3, countE_append, countE_cons, countE_nil, hpr, hup]
        · simp [hs, hh, hhe, h3, countE_append, countE_cons, countE_nil, hpr, hup]
        · by_cases hs3 : j3.status_code = some 200 ∨ j3.status_code = some 201
              ∨ j3.status_code = some 202 <;>
            simp [hs, hh, hhe, h3, hs3, countE_append, countE_cons, countE_nil,
              hpr, hup]
  · simp [hs, countE_append, countE_cons, countE_nil, hpr]

/-- On the uninitialized-connection branch, `update_workspace_from_git`
reduces to a match on the retried status. -/
theorem update_from_git_unfold_init (wsId name : String) (o : Nat → GitResp)
    (j0 : GitJson) (h0 : o 0 = GitResp.parsed j0)
    (h400 : j0.status_code = some 400)
    (hec : j0.errorCode = some "WorkspaceGitConnectionNotInitialized") :
    update_workspace_from_git wsId name o =
      match o 2 with
      | GitResp.empty => (false, initPre wsId ++ [Eff.printMsg gitParseFailMsg])
      | GitResp.invalid => (false, initPre wsId ++ [Eff.printMsg gitParseFailMsg])
      | GitResp.parsed j2 => afterGitStatus wsId name o 3 j2 (initPre wsId) := by
  simp only [update_workspace_from_git, h0]
  rw [if_pos ⟨h400, hec⟩]

/-- Claim C9: when the first git-status query parses with status 400 and
error code `WorkspaceGitConnectionNotInitialized`, exactly one
initializeConnection POST is issued and the status is queried exactly once
more (two status GETs in total); and whenever the second status query parses
to a status other than 200, the function returns `false` with no
updateFromGit POST in the trace. -/
theorem update_from_git_init_spec (wsId name : String) (o : Nat → GitResp)
    (j0 : GitJson) (h0 : o 0 = GitResp.parsed j0)
    (h400 : j0.status_code = some 400)
    (hec : j0.errorCode = some "WorkspaceGitConnectionNotInitialized") :
    countE isGitInitPost (update_workspace_from_git wsId name o).2 = 1
    ∧ countE isGitStatusGet (update_workspace_from_git wsId name o).2 = 2
    ∧ (∀ j2, o 2 = GitResp.parsed j2 → ¬ j2.status_code = some 200 →
        (update_workspace_from_git wsId name o).1 = false
        ∧ countE isGitUpdatePost (update_workspace_from_git wsId name o).2 = 0) := by
  rw [update_from_git_unfold_init wsId name o j0 h0 h400 hec]
  refine ⟨?_, ?_, ?_⟩
  · rcases h2 : o 2 with _ | _ | j2
    · simp [h2, initPre, countE, List.filter_cons, List.filter_nil, isGitInitPost]
    · simp [h2, initPre, countE, List.filter_cons, List.filter_nil, isGitInitPost]
    · simp only [h2]
      rw [afterGitStatus_countE wsId name o 3 j2 (initPre wsId) isGitInitPost
        (fun b => rfl) (fun m => rfl)]
      simp [initPre, countE, List.filter_cons, List.filter_nil, isGitInitPost]
  · rcases h2 : o 2 with _ | _ | j2
    · simp [h2, initPre, countE, List.filter_cons, List.filter_nil, isGitStatusGet]
    · simp [h2, initPre, countE, List.filter_cons, List.filter_nil, isGitStatusGet]
    · simp only [h2]
      rw [afterGitStatus_countE wsId name o 3 j2 (initPre wsId) isGitStatusGet
        (fun b => rfl) (fun m => rfl)]
      simp [initPre, countE, List.filter_cons, List.filter_nil, isGitStatusGet]
  · intro j2 h2 hs
    simp only [h2]
    constructor <;>
      simp [afterGitStatus, hs, initPre, countE, List.filter_cons,
        List.filter_nil, isGitUpdatePost]

theorem update_from_git_init_spec_witness :
    countE isGitInitPost
      (update_workspace_from_git "w" "ws"
        (fun _ => GitResp.parsed
          ⟨some 400, some "WorkspaceGitConnectionNotInitialized", none⟩)).2 = 1 :=
  (update_from_git_init_spec "w" "ws"
    (fun _ => GitResp.parsed
      ⟨some 400, some "WorkspaceGitConnectionNotInitialized", none⟩)
    ⟨some 400, some "WorkspaceGitConnectionNotInitialized", none⟩
    rfl rfl rfl).1
